import Mathlib

/-!
Verification of the icecube_tools point-source likelihood code.

The development shallowly embeds the two source files:
  src/point_source_likelihood.py
  src/icecube_tools/point_source_analysis/point_source_analysis.py
Machine floats are modelled as real numbers; numpy arrays as lists of reals;
Python code that can raise is modelled with `Except String`.
-/

namespace IcecubeTools

open Real

/-- np.deg2rad: degrees to radians. -/
noncomputable def deg2rad (x : ℝ) : ℝ := x * (Real.pi / 180)

/-- np.log10. -/
noncomputable def log10 (x : ℝ) : ℝ := Real.log x / Real.log 10

/-- Lines 179-184 of point_source_likelihood.py: the floating-precision guard
applied to cos_r before arccos.  As written in the source, a value below -1.0
is replaced by 1.0 (not -1.0); after that assignment the second branch does not
fire, and a value above 1.0 is replaced by 1.0. -/
noncomputable def clampCos (x : ℝ) : ℝ :=
  if x < -1 then 1 else if x > 1 then 1 else x

/-- SpatialGaussianLikelihood: holds the angular resolution sigma in degrees. -/
structure SpatialGaussianLikelihood where
  sigma : ℝ

/-- SpatialGaussianLikelihood.__call__ (lines 155-188): spherical-law-of-cosines
separation between event and source, then a 2-D Gaussian density with the
resolution converted to radians at call time. -/
noncomputable def SpatialGaussianLikelihood.call (L : SpatialGaussianLikelihood)
    (eventCoord sourceCoord : ℝ × ℝ) : ℝ :=
  let sigmaRad := deg2rad L.sigma
  let norm := 0.5 / (Real.pi * sigmaRad ^ 2)
  let cosR := Real.cos (sourceCoord.1 - eventCoord.1) * Real.cos sourceCoord.2 *
      Real.cos eventCoord.2 + Real.sin sourceCoord.2 * Real.sin eventCoord.2
  let r := Real.arccos (clampCos cosR)
  let dist := Real.exp (-0.5 * (r / sigmaRad) ^ 2)
  norm * dist

/-- MarginalisedEnergyLikelihood: a reference sample of reconstructed energies
simulated at spectral index sim_index (default 1.5). -/
structure MarginalisedEnergyLikelihood where
  energy : List ℝ
  simIndex : ℝ

/-- _calc_weights (line 109-111): np.power(self._energy, self._sim_index - self._new_index).
`self._new_index` is assigned from the __call__ parameter immediately before
this runs, so it is passed explicitly here. -/
noncomputable def calcWeights (energy : List ℝ) (simIndex newIndex : ℝ) : List ℝ :=
  energy.map fun e => e ^ (simIndex - newIndex)

/-- The bin edges `bins = np.linspace(np.log10(min_E), np.log10(max_E))` of
__call__ with its default arguments min_E=1e2, max_E=1e9 (the linspace default
is 50 points, hence 49 bins).  Edge j is lo + j*(hi-lo)/49. -/
noncomputable def edges (j : ℕ) : ℝ :=
  log10 100 + (j : ℝ) * ((log10 1000000000 - log10 100) / 49)

/-- Membership of a sample in histogram bin k under np.histogram semantics:
bins are right-open except the last one, which also contains the right edge. -/
def inBin (k : ℕ) (x : ℝ) : Prop :=
  edges k ≤ x ∧ (x < edges (k + 1) ∨ (k = 48 ∧ x ≤ edges 49))

open Classical in
/-- The weighted count of np.histogram(np.log10(energy), bins, weights) in bin k. -/
noncomputable def histCounts (energy weights : List ℝ) (k : ℕ) : ℝ :=
  ((energy.zip weights).map (fun ew => if inBin k (log10 ew.1) then ew.2 else 0)).sum

/-- One entry of the density=True histogram: the bin count divided by the total
in-range count times the bin width (numpy normalises so the integral over the
range is one). -/
noncomputable def histDensity (energy weights : List ℝ) (k : ℕ) : ℝ :=
  histCounts energy weights k /
    ((∑ j ∈ Finset.range 49, histCounts energy weights j) * (edges (k + 1) - edges k))

open Classical in
/-- np.digitize(x, bins) for the increasing 50-edge grid with the default
right=False: the number of edges that are at most x (0 when x is below every
edge, 50 when x is at or above the last edge). -/
noncomputable def digitize (x : ℝ) : ℕ :=
  ((Finset.range 50).filter (fun j => edges j ≤ x)).card

/-- Python list indexing `xs[i]` for an int i: a negative index counts from the
end; an index out of range on either side raises IndexError. -/
def pyGet {α : Type} (xs : List α) (i : ℤ) : Except String α :=
  if h : 0 ≤ i ∧ i < xs.length then Except.ok (xs.get ⟨i.toNat, by omega⟩)
  else if h2 : i < 0 ∧ 0 ≤ i + xs.length then
    Except.ok (xs.get ⟨(i + xs.length).toNat, by omega⟩)
  else Except.error ("IndexError: list index out of range")

/-- MarginalisedEnergyLikelihood.__call__ (lines 114-129): reweight the
reference sample, build the normalised histogram of log10(energy), and return
`self._hist[np.digitize(np.log10(E), bins) - 1]`.  The histogram array has 49
entries, so the Python indexing step can wrap to the last entry (digitize = 0,
index -1) or raise IndexError (digitize = 50, index 49). -/
noncomputable def MarginalisedEnergyLikelihood.call (m : MarginalisedEnergyLikelihood)
    (E newIndex : ℝ) : Except String ℝ :=
  let w := calcWeights m.energy m.simIndex newIndex
  let hist := (List.range 49).map (fun k => histDensity m.energy w k)
  pyGet hist ((digitize (log10 E) : ℤ) - 1)

/-- Modelled from the spec, for comparison with the code: the index of the
histogram bin containing x, for x inside the supported range [2, 9) of
log-energies; the bins have uniform width 1/7, so this is the floor of
7*(x - 2). -/
noncomputable def binContaining (x : ℝ) : ℕ := Nat.floor (7 * (x - 2))

/-- Modelled from the spec, for comparison with the code: evaluate the density
at a query energy E by locating the histogram bin containing log10(E) and
returning that bin of the normalised reweighted histogram. -/
noncomputable def melSpecDensity (m : MarginalisedEnergyLikelihood) (E newIndex : ℝ) : ℝ :=
  histDensity m.energy (calcWeights m.energy m.simIndex newIndex) (binContaining (log10 E))

/-- Names bound at the module scope of point_source_likelihood.py: the
imported numpy alias and the three classes.  Class attributes are not part of
any lexical scope for bare-name lookup inside methods. -/
def moduleScope : List String :=
  ["np", "PointSourceLikelihood", "MarginalisedEnergyLikelihood", "SpatialGaussianLikelihood"]

/-- The Python builtins referenced in this module. -/
def builtinScope : List String := ["range", "len"]

/-- Python bare-name resolution inside a function body: the local scope, then
the module scope, then builtins. -/
def resolvesName (locals : List String) (n : String) : Bool :=
  locals.contains n || moduleScope.contains n || builtinScope.contains n

/-- PointSourceLikelihood state, as set up by __init__ (lines 24-51). -/
structure PointSourceLikelihood where
  directionLikelihood : SpatialGaussianLikelihood
  energyLikelihood : MarginalisedEnergyLikelihood
  bandWidth : ℝ
  eventCoords : List (ℝ × ℝ)
  energies : List ℝ
  sourceCoord : ℝ × ℝ
  N : ℕ
  bgIndex : ℝ

/-- PointSourceLikelihood.__init__: stores the components, sets
_band_width = 5 * sigma (degrees), N = len(energies) and _bg_index = 3.7. -/
noncomputable def PointSourceLikelihood.init
    (directionLikelihood : SpatialGaussianLikelihood)
    (energyLikelihood : MarginalisedEnergyLikelihood)
    (eventCoords : List (ℝ × ℝ)) (energies : List ℝ) (sourceCoord : ℝ × ℝ) :
    PointSourceLikelihood :=
  { directionLikelihood := directionLikelihood
    energyLikelihood := energyLikelihood
    bandWidth := 5 * directionLikelihood.sigma
    eventCoords := eventCoords
    energies := energies
    sourceCoord := sourceCoord
    N := energies.length
    bgIndex := 3.7 }

/-- PointSourceLikelihood._signal_likelihood (lines 54-56): the body is
`return direction_likelihood(event_coord, source_coord) * energy_likelihood(energy, index)`.
`direction_likelihood` and `energy_likelihood` are bare names; the attributes
set by __init__ are `self._direction_likelihood` and `self._energy_likelihood`,
so the lookup fails and the call raises NameError.  The guarded branch records
the value the line would produce if the bare names denoted those attributes. -/
noncomputable def PointSourceLikelihood.signalLikelihood (L : PointSourceLikelihood)
    (eventCoord sourceCoord : ℝ × ℝ) (energy index : ℝ) : Except String ℝ :=
  if resolvesName ["self", "event_coord", "source_coord", "energy", "index"]
      "direction_likelihood" then
    do
      let e ← L.energyLikelihood.call energy index
      pure (L.directionLikelihood.call eventCoord sourceCoord * e)
  else Except.error ("NameError: name direction_likelihood is not defined")

/-- PointSourceLikelihood._background_likelihood (lines 59-61): the body is
`return energy_likelihood(energy, self._bg_index) / np.deg2rad(self._band_width)`
with `energy_likelihood` again a bare, unbound name. -/
noncomputable def PointSourceLikelihood.backgroundLikelihood (L : PointSourceLikelihood)
    (energy : ℝ) : Except String ℝ :=
  if resolvesName ["self", "energy"] "energy_likelihood" then
    do
      let e ← L.energyLikelihood.call energy L.bgIndex
      pure (e / deg2rad L.bandWidth)
  else Except.error ("NameError: name energy_likelihood is not defined")

/-- PointSourceLikelihood.__call__ (lines 64-83): after `log_likelihood = 0`,
the loop header `for i in range(N):` evaluates the bare name `N` (the attribute
is `self.N`), which resolves in no scope, so the call raises NameError before
any iteration runs.  The guarded branch records the mixture sum the loop would
accumulate if `N` denoted self.N. -/
noncomputable def PointSourceLikelihood.call (L : PointSourceLikelihood)
    (ns index : ℝ) : Except String ℝ :=
  if resolvesName ["self", "ns", "index", "log_likelihood"] "N" then
    (List.range L.N).foldlM
      (fun acc i => do
        let s ← L.signalLikelihood (L.eventCoords.getD i (0, 0)) L.sourceCoord
            (L.energies.getD i 0) index
        let b ← L.backgroundLikelihood (L.energies.getD i 0)
        pure (acc + Real.log ((ns / (L.N : ℝ)) * s + (1 - ns / (L.N : ℝ)) * b)))
      0
  else Except.error ("NameError: name N is not defined")

/-- The event-catalog arrays read by MapScan.perform_scan (lines 92-95):
self.events._ra, _dec, _ang_err, _reco_energy. -/
structure Events where
  ra : List ℝ
  dec : List ℝ
  angErr : List ℝ
  recoEnergy : List ℝ

/-- A Python value that is either a numpy array or a float scalar; used to
record what perform_scan passes to _test_source. -/
inductive PyArg : Type
  | arr (xs : List ℝ)
  | scalar (x : ℝ)

/-- The local names of MapScan.perform_scan that hold event data. -/
structure ScanLocals where
  ra : PyArg
  dec : PyArg
  angErr : PyArg
  recoEnergy : PyArg

/-- One call of self._test_source(source_coord, num, ra, dec, reco_energy, ang_err). -/
structure TestSourceArgs where
  sourceCoord : ℝ × ℝ
  num : ℕ
  ra : PyArg
  dec : PyArg
  recoEnergy : PyArg
  angErr : PyArg

/-- MapScan.perform_scan (lines 89-97), recorded as the list of argument tuples
passed to _test_source.  Lines 92-95 bind the locals ra, dec, ang_err,
reco_energy to the catalog arrays; the loop target
`for c, (ra, dec) in enumerate(zip(self.ra_test, self.dec_test))` rebinds the
same names `ra` and `dec` on every iteration, so inside the body they denote
the candidate scalars while ang_err and reco_energy still denote the arrays. -/
def performScanArgs (events : Events) (raTest decTest : List ℝ) : List TestSourceArgs :=
  let l : ScanLocals :=
    { ra := PyArg.arr events.ra, dec := PyArg.arr events.dec,
      angErr := PyArg.arr events.angErr, recoEnergy := PyArg.arr events.recoEnergy }
  (raTest.zip decTest).enum.map fun ci =>
    let l := { l with ra := PyArg.scalar ci.2.1, dec := PyArg.scalar ci.2.2 }
    { sourceCoord := (ci.2.1, ci.2.2), num := ci.1,
      ra := l.ra, dec := l.dec, recoEnergy := l.recoEnergy, angErr := l.angErr }

/-- The result arrays of MapScan, as allocated by _make_output_arrays. -/
structure ScanOutput where
  ts : List ℝ
  index : List ℝ
  ns : List (List ℝ)
  nsErr : List (List ℝ)
  indexErr : List ℝ

/-- MapScan._make_output_arrays (lines 187-195) in the npix-is-set case:
np.zeros(npix) for ts, index, index_err and np.zeros((npix, num_of_irf_periods))
for ns, ns_err. -/
def makeOutputArrays (npix numOfIrfPeriods : ℕ) : ScanOutput :=
  { ts := List.replicate npix 0
    index := List.replicate npix 0
    ns := List.replicate npix (List.replicate numOfIrfPeriods 0)
    nsErr := List.replicate npix (List.replicate numOfIrfPeriods 0)
    indexErr := List.replicate npix 0 }

/-- Modelled from the spec: TimeDependentPointSourceLikelihood is defined in
icecube_tools.point_source_likelihood, outside src/.  _test_source uses only
its event count N, its test statistic, best-fit index and ns, and the
minimiser errors, which are abstracted here as a record of fit products. -/
structure TimeDependentFit where
  N : ℕ
  testStatistic : ℝ
  bestFitIndex : ℝ
  bestFitNs : List ℝ
  indexError : ℝ
  nsErrors : List ℝ

/-- The likelihood models a candidate position can be evaluated with. -/
inductive LikelihoodModel : Type
  | timeDependent

/-- MapScan._test_source (lines 100-118): if the candidate declination is at
most deg2rad(10), construct a TimeDependentPointSourceLikelihood and, when its
N is positive, store the fit products at index num; otherwise do nothing (there
is no branch for declinations above the threshold).  The second component
records which likelihood model was constructed, the third whether the fit
(get_test_statistic) was invoked. -/
noncomputable def testSource (out : ScanOutput) (sourceCoord : ℝ × ℝ) (num : ℕ)
    (fit : TimeDependentFit) : ScanOutput × Option LikelihoodModel × Bool :=
  if sourceCoord.2 ≤ deg2rad 10 then
    if 0 < fit.N then
      ({ ts := out.ts.set num fit.testStatistic
         index := out.index.set num fit.bestFitIndex
         ns := out.ns.set num fit.bestFitNs
         nsErr := out.nsErr.set num fit.nsErrors
         indexErr := out.indexErr.set num fit.indexError },
       some LikelihoodModel.timeDependent, true)
    else (out, some LikelihoodModel.timeDependent, false)
  else (out, none, false)

open Classical in
/-- Elementwise comparison array > scalar, as numpy broadcasts it; yields a
boolean array. -/
noncomputable def arrGtSca (xs : List ℝ) (t : ℝ) : List Bool :=
  xs.map fun x => decide (t < x)

open Classical in
/-- Elementwise comparison array < scalar. -/
noncomputable def arrLtSca (xs : List ℝ) (t : ℝ) : List Bool :=
  xs.map fun x => decide (x < t)

open Classical in
/-- Elementwise comparison array < array. -/
noncomputable def arrLtArr (xs ys : List ℝ) : List Bool :=
  List.zipWith (fun x y => decide (x < y)) xs ys

/-- numpy `&` between two boolean arrays: elementwise and. -/
def barrAnd (a b : List Bool) : List Bool := List.zipWith and a b

/-- numpy `&` between a float scalar and a float array: bitwise_and has no
loop for float types, so the operation raises TypeError. -/
def fscaAndFarr {α : Type} (x : ℝ) (xs : List ℝ) : Except String α :=
  Except.error ("TypeError: unsupported operand types for bitwise and of float64 and ndarray")

/-- np.nonzero on a boolean array: the indices of the true entries. -/
def nonzero (bs : List Bool) : List ℕ :=
  (bs.enum.filter (fun ib => ib.2)).map (fun ib => ib.1)

/-- The per-period arrays read by MapScan.apply_cuts from
self.events.period(p). -/
structure PeriodEvents where
  recoEnergy : List ℝ
  dec : List ℝ

/-- The boolean-mask expression of MapScan.apply_cuts (lines 204-209),
evaluated in Python order.  The parenthesised operand
`(events["dec"] < np.deg2rad(10) & events["reco_energy"] > self.equator_emin)`
parses, because `&` binds tighter than the comparisons, as the chained
comparison `dec < (np.deg2rad(10) & reco_energy) > equator_emin`; evaluating
`np.deg2rad(10) & reco_energy` applies bitwise and to floats and raises
TypeError, so the whole expression raises for every input. -/
noncomputable def applyCutsMask (reco dec : List ℝ)
    (northernEmin equatorEmin southernEmin : ℝ) : Except String (List Bool) := do
  let t1 := barrAnd (arrGtSca reco northernEmin) (arrGtSca dec (deg2rad 10))
  let t2 := barrAnd t1 (arrGtSca reco equatorEmin)
  let mid ← fscaAndFarr (deg2rad 10) reco
  -- the rest of the chained comparison (never reached: `mid` raised above)
  let c4 := barrAnd (arrLtArr dec mid) (arrGtSca mid equatorEmin)
  let t3 := barrAnd t2 c4
  let t4 := barrAnd t3 (arrGtSca dec (deg2rad (-10)))
  let t5 := barrAnd t4 (arrGtSca reco southernEmin)
  pure (barrAnd t5 (arrLtSca dec (deg2rad 10)))

/-- The state of a MapScan instance, with the attributes read by apply_cuts
(the per-period event view, the period list and the three energy thresholds)
and the remaining mutable attributes of the object. -/
structure MapScanState where
  events : String → PeriodEvents
  periods : List String
  northernEmin : ℝ
  equatorEmin : ℝ
  southernEmin : ℝ
  npix : Option ℕ
  raTest : List ℝ
  decTest : List ℝ
  output : ScanOutput

/-- The `for p in self.periods` loop of apply_cuts: accumulate the local
variable mask with `mask += np.nonzero(<expr>)` per period. -/
noncomputable def maskLoop (ps : List String) (events : String → PeriodEvents)
    (northernEmin equatorEmin southernEmin : ℝ) : Except String (List (List ℕ)) :=
  ps.foldlM
    (fun mask p => do
      let ev := events p
      let m ← applyCutsMask ev.recoEnergy ev.dec northernEmin equatorEmin southernEmin
      pure (mask ++ [nonzero m]))
    []

/-- MapScan.apply_cuts (lines 198-209): the body binds only the locals `mask`
and `events`, never assigns to self, and falls off the end (returning None)
when the loop completes; the computed mask is discarded.  The returned state is
the unchanged instance, paired with the outcome of executing the body. -/
noncomputable def applyCuts (st : MapScanState) : MapScanState × Except String Unit :=
  (st,
   (maskLoop st.periods st.events st.northernEmin st.equatorEmin st.southernEmin).map
     (fun _ => ()))

/-- Modelled from the spec: an event with reconstructed energy E and
declination d is retained iff E exceeds the minimum-energy threshold of the one
band containing d, the bands being northern (d above 10 degrees), equatorial
(between -10 and 10 degrees) and southern (below -10 degrees). -/
noncomputable def retainedSpec (E d northernEmin equatorEmin southernEmin : ℝ) : Prop :=
  if deg2rad 10 < d then northernEmin < E
  else if deg2rad (-10) ≤ d then equatorEmin < E
  else southernEmin < E

/-! Arithmetic facts about the embedded operations. -/

lemma log_ten_pos : 0 < Real.log 10 := Real.log_pos (by norm_num)

lemma log10_pow (n : ℕ) : log10 ((10 : ℝ) ^ n) = n := by
  rw [log10, Real.log_pow, mul_div_assoc, div_self (ne_of_gt log_ten_pos), mul_one]

lemma log10_100 : log10 100 = 2 := by
  have h : (100 : ℝ) = 10 ^ (2 : ℕ) := by norm_num
  rw [h, log10_pow]
  norm_num

lemma log10_1e9 : log10 1000000000 = 9 := by
  have h : (1000000000 : ℝ) = 10 ^ (9 : ℕ) := by norm_num
  rw [h, log10_pow]
  norm_num

lemma edges_eq (j : ℕ) : edges j = 2 + (j : ℝ) / 7 := by
  rw [edges, log10_100, log10_1e9]
  ring

lemma two_le_log10 {E : ℝ} (h : 100 ≤ E) : 2 ≤ log10 E := by
  have hlog : Real.log 100 ≤ Real.log E := Real.log_le_log (by norm_num) h
  have h100 : Real.log 100 = 2 * Real.log 10 := by
    have : (100 : ℝ) = 10 ^ (2 : ℕ) := by norm_num
    rw [this, Real.log_pow]
    norm_num
  rw [log10, le_div_iff₀ log_ten_pos]
  linarith

lemma log10_lt_nine {E : ℝ} (h0 : 0 < E) (h : E < 1000000000) : log10 E < 9 := by
  have hlog : Real.log E < Real.log 1000000000 := Real.log_lt_log h0 h
  have h1e9 : Real.log 1000000000 = 9 * Real.log 10 := by
    have : (1000000000 : ℝ) = 10 ^ (9 : ℕ) := by norm_num
    rw [this, Real.log_pow]
    norm_num
  rw [log10, div_lt_iff₀ log_ten_pos]
  linarith

lemma cos_expr_mem (a b c : ℝ) :
    -1 ≤ Real.cos a * Real.cos b * Real.cos c + Real.sin b * Real.sin c ∧
      Real.cos a * Real.cos b * Real.cos c + Real.sin b * Real.sin c ≤ 1 := by
  have hb := Real.sin_sq_add_cos_sq b
  have hc := Real.sin_sq_add_cos_sq c
  have ha1 := Real.neg_one_le_cos a
  have ha2 := Real.cos_le_one a
  constructor
  · rcases le_or_lt 0 (Real.cos b * Real.cos c) with h | h
    · nlinarith [sq_nonneg (Real.cos b - Real.cos c), sq_nonneg (Real.sin b + Real.sin c)]
    · nlinarith [sq_nonneg (Real.cos b + Real.cos c), sq_nonneg (Real.sin b + Real.sin c)]
  · rcases le_or_lt 0 (Real.cos b * Real.cos c) with h | h
    · nlinarith [sq_nonneg (Real.cos b - Real.cos c), sq_nonneg (Real.sin b - Real.sin c)]
    · nlinarith [sq_nonneg (Real.cos b + Real.cos c), sq_nonneg (Real.sin b - Real.sin c)]

lemma clampCos_eq_self {x : ℝ} (h1 : -1 ≤ x) (h2 : x ≤ 1) : clampCos x = x := by
  rw [clampCos, if_neg (by linarith), if_neg (by linarith)]

lemma digitize_of_lt {x : ℝ} (hx : x < 2) : digitize x = 0 := by
  rw [digitize, Finset.card_eq_zero, Finset.filter_eq_empty_iff]
  intro j _
  rw [edges_eq]
  have : (0 : ℝ) ≤ (j : ℝ) / 7 := by positivity
  intro hle
  linarith

lemma digitize_of_ge {x : ℝ} (hx : 9 ≤ x) : digitize x = 50 := by
  rw [digitize]
  have hall : (Finset.range 50).filter (fun j => edges j ≤ x) = Finset.range 50 := by
    rw [Finset.filter_eq_self]
    intro j hj
    rw [Finset.mem_range] at hj
    rw [edges_eq]
    have h49 : (j : ℝ) ≤ 49 := by exact_mod_cast Nat.le_of_lt_succ hj
    linarith
  rw [hall, Finset.card_range]

lemma digitize_of_mem {x : ℝ} (h1 : 2 ≤ x) (h2 : x < 9) :
    digitize x = Nat.floor (7 * (x - 2)) + 1 := by
  have h70 : (0 : ℝ) ≤ 7 * (x - 2) := by linarith
  have hm48 : Nat.floor (7 * (x - 2)) ≤ 48 := by
    have hlt : 7 * (x - 2) < ((49 : ℕ) : ℝ) := by push_cast; linarith
    exact Nat.lt_succ_iff.mp ((Nat.floor_lt h70).mpr hlt)
  rw [digitize]
  have hfe : (Finset.range 50).filter (fun j => edges j ≤ x)
      = Finset.range (Nat.floor (7 * (x - 2)) + 1) := by
    ext j
    simp only [Finset.mem_filter, Finset.mem_range, edges_eq]
    constructor
    · rintro ⟨hj, hle⟩
      have hjr : (j : ℝ) ≤ 7 * (x - 2) := by linarith
      exact Nat.lt_succ_of_le (Nat.le_floor hjr)
    · intro hj
      have hjf : j ≤ Nat.floor (7 * (x - 2)) := by omega
      have hcast : (j : ℝ) ≤ (Nat.floor (7 * (x - 2)) : ℝ) := by exact_mod_cast hjf
      have hfl : (Nat.floor (7 * (x - 2)) : ℝ) ≤ 7 * (x - 2) := Nat.floor_le h70
      refine ⟨by omega, ?_⟩
      linarith
  rw [hfe, Finset.card_range]

lemma pyGet_map_range_ok (f : ℕ → ℝ) (n i : ℕ) (h : i < n) :
    pyGet ((List.range n).map f) ((i : ℤ)) = Except.ok (f i) := by
  simp only [pyGet, List.length_map, List.length_range]
  rw [dif_pos ⟨by omega, by omega⟩]
  congr 1
  have ht : ((i : ℤ)).toNat = i := by omega
  simp [ht, List.get_eq_getElem, List.getElem_map, List.getElem_range]

lemma pyGet_map_range_neg_one (f : ℕ → ℝ) (n : ℕ) (h : 0 < n) :
    pyGet ((List.range n).map f) (-1) = Except.ok (f (n - 1)) := by
  simp only [pyGet, List.length_map, List.length_range]
  rw [dif_neg (by omega), dif_pos ⟨by omega, by omega⟩]
  congr 1
  have ht : ((-1 : ℤ) + (n : ℤ)).toNat = n - 1 := by omega
  simp [ht, List.get_eq_getElem, List.getElem_map, List.getElem_range]

lemma pyGet_map_range_err (f : ℕ → ℝ) (n : ℕ) :
    pyGet ((List.range n).map f) ((n : ℤ))
      = Except.error ("IndexError: list index out of range") := by
  simp only [pyGet, List.length_map, List.length_range]
  rw [dif_neg (by omega), dif_neg (by omega)]

/-! Claim theorems. -/

/-- Claim C7: for every angular resolution sigma > 0 in degrees and every
event/source coordinate pair in radians, SpatialGaussianLikelihood.__call__
returns (1/(2 pi sigma_rad^2)) * exp(-r^2/(2 sigma_rad^2)), where sigma_rad is
sigma converted to radians at call time and r is the arccosine of the
law-of-cosines expression, and the returned density is non-negative. -/
theorem spatial_call_formula_nonneg (sigma ra dec sra sdec : ℝ) (hs : 0 < sigma) :
    SpatialGaussianLikelihood.call ⟨sigma⟩ (ra, dec) (sra, sdec)
        = 1 / (2 * Real.pi * (deg2rad sigma) ^ 2) *
          Real.exp (-(Real.arccos (Real.cos (sra - ra) * Real.cos sdec * Real.cos dec +
              Real.sin sdec * Real.sin dec)) ^ 2 / (2 * (deg2rad sigma) ^ 2))
      ∧ 0 ≤ SpatialGaussianLikelihood.call ⟨sigma⟩ (ra, dec) (sra, sdec) := by
  have hpi : 0 < Real.pi := Real.pi_pos
  have hsr : 0 < deg2rad sigma := by
    rw [deg2rad]
    positivity
  have hne : deg2rad sigma ≠ 0 := ne_of_gt hsr
  obtain ⟨hlo, hhi⟩ := cos_expr_mem (sra - ra) sdec dec
  have heq : SpatialGaussianLikelihood.call ⟨sigma⟩ (ra, dec) (sra, sdec)
      = 1 / (2 * Real.pi * (deg2rad sigma) ^ 2) *
        Real.exp (-(Real.arccos (Real.cos (sra - ra) * Real.cos sdec * Real.cos dec +
            Real.sin sdec * Real.sin dec)) ^ 2 / (2 * (deg2rad sigma) ^ 2)) := by
    simp only [SpatialGaussianLikelihood.call]
    rw [clampCos_eq_self hlo hhi]
    have harg : -0.5 * (Real.arccos (Real.cos (sra - ra) * Real.cos sdec * Real.cos dec +
          Real.sin sdec * Real.sin dec) / deg2rad sigma) ^ 2
        = -(Real.arccos (Real.cos (sra - ra) * Real.cos sdec * Real.cos dec +
            Real.sin sdec * Real.sin dec)) ^ 2 / (2 * (deg2rad sigma) ^ 2) := by
      field_simp
      ring
    rw [harg]
    have hnorm : (0.5 : ℝ) / (Real.pi * deg2rad sigma ^ 2)
        = 1 / (2 * Real.pi * (deg2rad sigma) ^ 2) := by
      rw [div_eq_div_iff (by positivity) (by positivity)]
      ring
    rw [hnorm]
  refine ⟨heq, ?_⟩
  rw [heq]
  positivity

/-- Witness for C7 at sigma = 1 degree and coincident event and source. -/
theorem spatial_call_formula_nonneg_witness :
    (0 : ℝ) < 1 ∧
      (SpatialGaussianLikelihood.call ⟨1⟩ (0, 0) (0, 0)
          = 1 / (2 * Real.pi * (deg2rad 1) ^ 2) *
            Real.exp (-(Real.arccos (Real.cos (0 - 0) * Real.cos 0 * Real.cos 0 +
                Real.sin 0 * Real.sin 0)) ^ 2 / (2 * (deg2rad 1) ^ 2))
        ∧ 0 ≤ SpatialGaussianLikelihood.call ⟨1⟩ (0, 0) (0, 0)) :=
  ⟨by norm_num, spatial_call_formula_nonneg 1 0 0 0 0 (by norm_num)⟩

/-- Claim C5, evaluated on the code: the floating-precision guard of
SpatialGaussianLikelihood.__call__ does not raise on a cosine perturbed
outside [-1, 1], but for cos(r) below -1 it assigns +1.0 (line 180), so the
arccosine yields separation 0 there, not the claimed pi. -/
theorem clamp_cos_below_gives_zero_separation :
    clampCos (-(3 / 2)) = 1 ∧ Real.arccos (clampCos (-(3 / 2))) = 0
      ∧ clampCos (3 / 2) = 1 ∧ Real.arccos (clampCos (3 / 2)) = 0
      ∧ Real.arccos (clampCos (-(3 / 2))) ≠ Real.pi := by
  have hlow : clampCos (-(3 / 2)) = 1 := by
    rw [clampCos, if_pos (by norm_num)]
  have hhigh : clampCos ((3 : ℝ) / 2) = 1 := by
    rw [clampCos, if_neg (by norm_num), if_pos (by norm_num)]
  refine ⟨hlow, ?_, hhigh, ?_, ?_⟩
  · rw [hlow, Real.arccos_one]
  · rw [hhigh, Real.arccos_one]
  · rw [hlow, Real.arccos_one]
    exact fun h => Real.pi_ne_zero h.symm

/-- Claim C1, evaluated on the code: PointSourceLikelihood.__call__ never
returns the mixture log-likelihood sum; for every constructed instance and all
fit parameters (ns, index) it raises NameError, because the loop header
`for i in range(N):` reads the bare name `N` (the attribute is `self.N`),
which no enclosing scope binds; the helper methods likewise read the unbound
bare names `direction_likelihood` and `energy_likelihood`. -/
theorem point_source_call_raises_name_error
    (dl : SpatialGaussianLikelihood) (el : MarginalisedEnergyLikelihood)
    (eventCoords : List (ℝ × ℝ)) (energies : List ℝ) (sourceCoord : ℝ × ℝ)
    (ns index : ℝ) :
    (PointSourceLikelihood.init dl el eventCoords energies sourceCoord).call ns index
      = Except.error ("NameError: name N is not defined") := by
  rw [PointSourceLikelihood.call, if_neg (by decide)]

/-- Claim C6, amended part: for every reference sample, reference index and
query index, and every query energy E with 100 <= E < 1e9 (strictly below the
upper edge), MarginalisedEnergyLikelihood.__call__ returns exactly the density
of the histogram bin containing log10(E) in the normalised reweighted
histogram, as the spec describes. -/
theorem energy_call_in_range_returns_bin_density
    (m : MarginalisedEnergyLikelihood) (E newIndex : ℝ)
    (h1 : 100 ≤ E) (h2 : E < 1000000000) :
    MarginalisedEnergyLikelihood.call m E newIndex
      = Except.ok (melSpecDensity m E newIndex) := by
  have hx1 : 2 ≤ log10 E := two_le_log10 h1
  have hx2 : log10 E < 9 := log10_lt_nine (by linarith) h2
  have hd : digitize (log10 E) = Nat.floor (7 * (log10 E - 2)) + 1 := digitize_of_mem hx1 hx2
  have hm48 : Nat.floor (7 * (log10 E - 2)) ≤ 48 := by
    have h70 : (0 : ℝ) ≤ 7 * (log10 E - 2) := by linarith
    have hlt : 7 * (log10 E - 2) < ((49 : ℕ) : ℝ) := by push_cast; linarith
    exact Nat.lt_succ_iff.mp ((Nat.floor_lt h70).mpr hlt)
  simp only [MarginalisedEnergyLikelihood.call]
  rw [hd]
  have hcast : ((Nat.floor (7 * (log10 E - 2)) + 1 : ℕ) : ℤ) - 1
      = ((Nat.floor (7 * (log10 E - 2)) : ℕ) : ℤ) := by push_cast; ring
  rw [hcast, pyGet_map_range_ok _ 49 _ (by omega)]
  rfl

/-- Witness for C6 at the reference sample [1000 GeV], query energy 1000 GeV. -/
theorem energy_call_in_range_returns_bin_density_witness :
    MarginalisedEnergyLikelihood.call ⟨[1000], 3 / 2⟩ 1000 2
      = Except.ok (melSpecDensity ⟨[1000], 3 / 2⟩ 1000 2) :=
  energy_call_in_range_returns_bin_density ⟨[1000], 3 / 2⟩ 1000 2 (by norm_num) (by norm_num)

/-- Counterexample for C6 as stated: at the upper edge E = 1e9 of the claimed
supported range [100, 1e9], digitize returns 50, the Python index is 49, and
the 49-entry histogram raises IndexError instead of returning a bin density. -/
theorem energy_call_at_upper_edge_raises :
    MarginalisedEnergyLikelihood.call ⟨[1000], 3 / 2⟩ ((10 : ℝ) ^ (9 : ℕ)) (3 / 2)
      = Except.error ("IndexError: list index out of range") := by
  have hl : log10 ((10 : ℝ) ^ (9 : ℕ)) = 9 := by
    rw [log10_pow]
    norm_num
  simp only [MarginalisedEnergyLikelihood.call]
  rw [hl, digitize_of_ge (by norm_num)]
  have hcast : ((50 : ℕ) : ℤ) - 1 = ((49 : ℕ) : ℤ) := by norm_num
  rw [hcast, pyGet_map_range_err]

/-- Claim C4, evaluated on the code: out-of-range energy queries do not follow
a single policy.  Below the supported range digitize returns 0, the Python
index is -1, and the call silently returns the density of the TOPMOST bin
(bin 48) -- neither a clamp to the nearest edge (bin 0) nor an error; above
the range it raises IndexError.  The same __call__ serves both signal and
background evaluation. -/
theorem energy_out_of_range_policy_divergence
    (m : MarginalisedEnergyLikelihood) (newIndex : ℝ) :
    MarginalisedEnergyLikelihood.call m 10 newIndex
        = Except.ok (histDensity m.energy (calcWeights m.energy m.simIndex newIndex) 48)
      ∧ MarginalisedEnergyLikelihood.call m ((10 : ℝ) ^ (10 : ℕ)) newIndex
        = Except.error ("IndexError: list index out of range") := by
  constructor
  · have hl : log10 (10 : ℝ) = 1 := by
      have h : (10 : ℝ) = 10 ^ (1 : ℕ) := by norm_num
      rw [h, log10_pow]
      norm_num
    simp only [MarginalisedEnergyLikelihood.call]
    rw [hl, digitize_of_lt (by norm_num)]
    have hcast : ((0 : ℕ) : ℤ) - 1 = -1 := by norm_num
    rw [hcast, pyGet_map_range_neg_one _ 49 (by norm_num)]
  · have hl : log10 ((10 : ℝ) ^ (10 : ℕ)) = 10 := by
      rw [log10_pow]
      norm_num
    simp only [MarginalisedEnergyLikelihood.call]
    rw [hl, digitize_of_ge (by norm_num)]
    have hcast : ((50 : ℕ) : ℤ) - 1 = ((49 : ℕ) : ℤ) := by norm_num
    rw [hcast, pyGet_map_range_err]

/-- Claim C3, evaluated on the code at a concrete catalog: the loop target of
perform_scan shadows the locals holding the catalog arrays, so _test_source
receives the candidate scalars, not the arrays of event right ascensions and
declinations.  Here the catalog has event ra = [1, 2] and dec = [3, 4], the
single candidate is (10, 20), and the call receives ra and dec as the scalars
10 and 20 while a scalar can never equal the claimed event array. -/
theorem perform_scan_passes_candidate_scalars :
    performScanArgs ⟨[1, 2], [3, 4], [5, 6], [7, 8]⟩ [10] [20]
        = [{ sourceCoord := (10, 20), num := 0, ra := PyArg.scalar 10,
             dec := PyArg.scalar 20, recoEnergy := PyArg.arr [7, 8],
             angErr := PyArg.arr [5, 6] }]
      ∧ PyArg.scalar 10 ≠ PyArg.arr [1, 2] := by
  constructor
  · rfl
  · intro h
    exact PyArg.noConfusion h

/-- Claim C8: whenever the constructed likelihood for a candidate reports
N = 0 events, _test_source leaves the output arrays exactly as allocated by
_make_output_arrays, never invokes the fit, and in particular the stored test
statistic for that candidate is still zero. -/
theorem test_source_skips_fit_when_no_events
    (npix numPeriods : ℕ) (sourceCoord : ℝ × ℝ) (num : ℕ) (fit : TimeDependentFit)
    (hN : fit.N = 0) (hnum : num < npix) :
    (testSource (makeOutputArrays npix numPeriods) sourceCoord num fit).1
        = makeOutputArrays npix numPeriods
      ∧ (testSource (makeOutputArrays npix numPeriods) sourceCoord num fit).2.2 = false
      ∧ (testSource (makeOutputArrays npix numPeriods) sourceCoord num fit).1.ts.getD num 0
        = 0 := by
  have hfit : ¬ 0 < fit.N := by omega
  have hstate : (testSource (makeOutputArrays npix numPeriods) sourceCoord num fit)
      = (makeOutputArrays npix numPeriods,
         if sourceCoord.2 ≤ deg2rad 10 then some LikelihoodModel.timeDependent else none,
         false) := by
    rw [testSource]
    rcases le_or_lt sourceCoord.2 (deg2rad 10) with h | h
    · rw [if_pos h, if_neg hfit, if_pos h]
    · rw [if_neg (not_le.mpr h), if_neg (not_le.mpr h)]
  refine ⟨by rw [hstate], by rw [hstate], ?_⟩
  rw [hstate]
  simp only [makeOutputArrays]
  rw [List.getD_eq_getElem?_getD, List.getElem?_replicate]
  simp [hnum]

/-- Witness for C8 with one candidate pixel and a likelihood holding no event. -/
theorem test_source_skips_fit_when_no_events_witness :
    (testSource (makeOutputArrays 1 1) (0, 0) 0 ⟨0, 0, 0, [], 0, []⟩).1
        = makeOutputArrays 1 1
      ∧ (testSource (makeOutputArrays 1 1) (0, 0) 0 ⟨0, 0, 0, [], 0, []⟩).2.2 = false
      ∧ (testSource (makeOutputArrays 1 1) (0, 0) 0 ⟨0, 0, 0, [], 0, []⟩).1.ts.getD 0 0 = 0 :=
  test_source_skips_fit_when_no_events 1 1 (0, 0) 0 ⟨0, 0, 0, [], 0, []⟩ rfl (by norm_num)

/-- Claim C9, amended part: a candidate with declination at most deg2rad(10)
is evaluated with the time-dependent likelihood; a candidate with declination
above deg2rad(10) is not evaluated at all -- no likelihood of any kind is
constructed, no fit runs, and the output arrays are untouched. -/
theorem test_source_policy_by_declination
    (out : ScanOutput) (sourceCoord : ℝ × ℝ) (num : ℕ) (fit : TimeDependentFit) :
    (sourceCoord.2 ≤ deg2rad 10 →
        (testSource out sourceCoord num fit).2.1 = some LikelihoodModel.timeDependent)
      ∧ (deg2rad 10 < sourceCoord.2 →
        testSource out sourceCoord num fit = (out, none, false)) := by
  constructor
  · intro h
    rw [testSource, if_pos h]
    rcases Nat.eq_zero_or_pos fit.N with h0 | h0
    · rw [if_neg (by omega)]
    · rw [if_pos h0]
  · intro h
    rw [testSource, if_neg (not_le.mpr h)]

/-- Witness for C9 at a candidate on the equator and at one well north of the
threshold. -/
theorem test_source_policy_by_declination_witness :
    (testSource (makeOutputArrays 1 1) (0, 0) 0 ⟨1, 0, 0, [0], 0, [0]⟩).2.1
        = some LikelihoodModel.timeDependent
      ∧ testSource (makeOutputArrays 2 1) (0, deg2rad 45) 0 ⟨1, 0, 0, [0], 0, [0]⟩
        = (makeOutputArrays 2 1, none, false) :=
  ⟨(test_source_policy_by_declination (makeOutputArrays 1 1) (0, 0) 0 ⟨1, 0, 0, [0], 0, [0]⟩).1
      (by rw [deg2rad]; positivity),
   (test_source_policy_by_declination (makeOutputArrays 2 1) (0, deg2rad 45) 0
      ⟨1, 0, 0, [0], 0, [0]⟩).2
      (by rw [deg2rad, deg2rad]; have := Real.pi_pos; linarith)⟩

/-- Counterexample for C9 as stated: a candidate at declination deg2rad(20),
above the 10 degree threshold, is not evaluated with any time-independent
likelihood -- _test_source has no else branch, so no likelihood is
constructed, no fit is invoked and the results stay at their defaults, even
though the catalog holds five events. -/
theorem test_source_above_band_not_evaluated :
    testSource (makeOutputArrays 1 1) (0, deg2rad 20) 0 ⟨5, 1, 2, [3], 4, [5]⟩
      = (makeOutputArrays 1 1, none, false) := by
  rw [testSource, if_neg]
  rw [not_le]
  rw [deg2rad, deg2rad]
  have := Real.pi_pos
  nlinarith

/-- Claim C2, evaluated on the code: the apply_cuts mask expression conjoins
every band condition with `&` into one mask, and its fourth operand applies
bitwise and between the float scalar np.deg2rad(10) and the float energy
array, so for every input the expression raises TypeError -- no event is ever
retained or rejected; under the spec band semantics the example event
(dec = pi/9 rad = 20 degrees, E = 150, all thresholds 100) must be retained. -/
theorem apply_cuts_mask_type_error_vs_band_spec :
    (∀ (reco dec : List ℝ) (n e s : ℝ),
        applyCutsMask reco dec n e s
          = Except.error
            ("TypeError: unsupported operand types for bitwise and of float64 and ndarray"))
      ∧ retainedSpec 150 (Real.pi / 9) 100 100 100 := by
  constructor
  · intro reco dec n e s
    rfl
  · rw [retainedSpec, if_pos]
    · norm_num
    · rw [deg2rad]
      have := Real.pi_pos
      linarith

/-- Claim C10, amended part: apply_cuts mutates no state -- the MapScan
instance, including its event catalog, is returned unchanged and no event is
removed; however the body only completes (returning None) when the period
list is empty, since for any period the malformed mask expression raises
TypeError. -/
theorem apply_cuts_leaves_state_unchanged (st : MapScanState) :
    (applyCuts st).1 = st
      ∧ (applyCuts st).1.events = st.events
      ∧ (st.periods = [] → (applyCuts st).2 = Except.ok ())
      ∧ (st.periods ≠ [] → (applyCuts st).2
          = Except.error
            ("TypeError: unsupported operand types for bitwise and of float64 and ndarray")) := by
  refine ⟨rfl, rfl, ?_, ?_⟩
  · intro h
    show (maskLoop st.periods st.events st.northernEmin st.equatorEmin st.southernEmin).map
        (fun _ => ()) = Except.ok ()
    rw [h]
    rfl
  · intro h
    rcases List.exists_cons_of_ne_nil h with ⟨p, ps, hps⟩
    show (maskLoop st.periods st.events st.northernEmin st.equatorEmin st.southernEmin).map
        (fun _ => ()) = Except.error _
    rw [hps]
    rfl

/-- Witness for C10 at a one-period configuration and at an empty-period one. -/
theorem apply_cuts_leaves_state_unchanged_witness :
    (applyCuts ⟨fun _ => ⟨[150], [Real.pi / 9]⟩, ["IC86_II"], 100, 100, 100, none, [], [],
        makeOutputArrays 0 0⟩).2
        = Except.error
          ("TypeError: unsupported operand types for bitwise and of float64 and ndarray")
      ∧ (applyCuts ⟨fun _ => ⟨[], []⟩, [], 100, 100, 100, none, [], [],
          makeOutputArrays 0 0⟩).2 = Except.ok () :=
  ⟨(apply_cuts_leaves_state_unchanged _).2.2.2 (by simp),
   (apply_cuts_leaves_state_unchanged _).2.2.1 rfl⟩

/-- Counterexample for C10 as stated: apply_cuts does not compute its mask and
return None on every loaded catalog and configuration -- with one period
("IC40") it raises TypeError from the malformed mask expression partway
through the loop body. -/
theorem apply_cuts_raises_type_error_example :
    (applyCuts ⟨fun _ => ⟨[150], [Real.pi / 9]⟩, ["IC40"], 100, 100, 100, none, [], [],
        makeOutputArrays 0 0⟩).2
      = Except.error
        ("TypeError: unsupported operand types for bitwise and of float64 and ndarray") := rfl

end IcecubeTools
